import Mathlib
/-!
Verification of the ring-down acquisition script (Rd_test_clean.py).

The development shallowly embeds the parts of the script that the
specification talks about:

* the memory-layout computation (waveform padding, burst counts, capture
  region placement) from the STEP 6/7 blocks;
* the completion waiter wait_done;
* the chunked capture-extraction loop of STEP 10;
* the script prefix up to the end of the STEP 8 register-configuration
  block, as a trace of hardware events (mapping, identity check, reset
  clears, waveform RAM write, the chunked waveform write loop, and the
  configuration register writes).

Machine integers are modelled as Nat: every quantity involved is
non-negative and far below 2^32, and the script uses arbitrary-precision
Python integers anyway.  The one floating-point computation that matters,
relax_samples = int((RELAXATION_TIME_US * 1e-6) * SAMPLE_RATE), is
modelled as exact integer division us * rate / 10^6 truncated toward
zero; for the script constants (3000, 125000000) the IEEE-double value
is exactly 375000.0, so the exact model agrees with the code there.
-/
namespace Ringdown
/-! ## Configuration constants (source lines 53-78) -/

def SAMPLE_RATE : Nat := 125000000

def EXCITATION_TIME_US : Nat := 300

def RELAXATION_TIME_US : Nat := 3000

def RAM_BASE : Nat := 0x01000000

def RAM_SIZE : Nat := 4 * 1024 * 1024

def SAMPLE_SIZE : Nat := 2

def BURST_BYTES : Nat := 128

/-! ## Register map (source lines 85-102) -/

def MLA_CONST_REG : Nat := 0x00

def WRITER_MIN_ADDRESS_REG : Nat := 0x04

def WRITER_NUM_BURSTS_REG : Nat := 0x08

def SOFT_RESET_REG : Nat := 0x0C

def WRITER_WRITE_PTR_REG : Nat := 0x10

def WRITER_DONE_REG : Nat := 0x14

def RELAXATION_TIME_REG : Nat := 0x18

def EXCITATION_TIME_REG : Nat := 0x1C

def READER_MIN_ADDRESS_REG : Nat := 0x20

def READER_READ_PTR_REG : Nat := 0x24

def READER_DONE_REG : Nat := 0x28

def READER_NUM_BURSTS_REG : Nat := 0x30

def READER_CONTINUOUS_MODE_REG : Nat := 0x38

def WRITER_CONTINUOUS_MODE_REG : Nat := 0x3C

def RELAY_ENABLED_REG : Nat := 0x40

def TRIGGER_ENABLED_REG : Nat := 0x44

/-! ## Memory-layout computation (source lines 197-253) -/

/-- The Python expression (-x) % m for a non-negative x and positive m:
Python % always returns a value in [0, m). -/
def negMod (x m : Nat) : Nat := (m - x % m) % m

/-- All quantities computed by the layout block of the script
(waveform_bytes after padding, waveform_bursts, writer_offset,
writer_offset_rel, relax_samples, relax_samples_aligned,
writer_num_bursts, true_writer_bytes). -/
structure MemoryLayout where
  waveformByteLength : Nat
  waveformBurstCount : Nat
  captureStartOffsetAbsolute : Nat
  captureStartOffsetRelative : Nat
  relaxSamplesRaw : Nat
  relaxSamplesAligned : Nat
  captureBurstCount : Nat
  captureByteLength : Nat
deriving DecidableEq

/-- The layout computation of the script, parametrised by the
configuration constants it reads.  Line-by-line from the source:

* waveform_bytes = waveform_samples * SAMPLE_SIZE          (line 198)
* pad = (-waveform_bytes) % 64; waveform_bytes += pad      (lines 208-210)
* waveform_bursts = waveform_bytes // BURST_BYTES          (line 223)
* writer_offset = RAM_BASE + waveform_bytes                (line 233)
* writer_offset_rel = writer_offset - RAM_BASE             (line 236)
* relax_samples = int((RELAXATION_TIME_US * 1e-6) * SAMPLE_RATE)
                                                           (line 246)
* pad_relax = (-relax_samples) % 64;
  relax_samples_aligned = relax_samples + pad_relax        (lines 249-250)
* writer_num_bursts = (relax_samples_aligned * SAMPLE_SIZE) // BURST_BYTES
                                                           (line 252)
* true_writer_bytes = writer_num_bursts * BURST_BYTES      (line 253)
-/
def planLayout (waveformSampleCount sampleSize burstSizeBytes
    relaxUs sampleRate ramBase : Nat) : MemoryLayout :=
  let waveformBytesRaw := waveformSampleCount * sampleSize
  let pad := negMod waveformBytesRaw 64
  let waveformBytes := waveformBytesRaw + pad
  let waveformBursts := waveformBytes / burstSizeBytes
  let writerOffset := ramBase + waveformBytes
  let writerOffsetRel := writerOffset - ramBase
  let relaxSamples := relaxUs * sampleRate / 1000000
  let padRelax := negMod relaxSamples 64
  let relaxSamplesAligned := relaxSamples + padRelax
  let writerNumBursts := relaxSamplesAligned * sampleSize / burstSizeBytes
  let trueWriterBytes := writerNumBursts * burstSizeBytes
  { waveformByteLength := waveformBytes
    waveformBurstCount := waveformBursts
    captureStartOffsetAbsolute := writerOffset
    captureStartOffsetRelative := writerOffsetRel
    relaxSamplesRaw := relaxSamples
    relaxSamplesAligned := relaxSamplesAligned
    captureBurstCount := writerNumBursts
    captureByteLength := trueWriterBytes }

/-- The error the specification says the layout computation raises. -/
inductive LayoutError
  | layoutError
deriving DecidableEq

/-- The layout block of the script (lines 189-257) viewed as fallible
code.  The block contains no validation and no raise statement of any
kind: it never compares anything against RAM_SIZE, never checks the
sample count or the sample rate, and every arithmetic operation in it is
total, so its Except-typed embedding returns ok unconditionally.  The
ramSize argument is accepted and ignored, exactly as the source ignores
RAM_SIZE in this block. -/
def planChecked (waveformSampleCount sampleSize burstSizeBytes
    relaxUs sampleRate ramBase : Nat) (_ramSize : Nat) :
    Except LayoutError MemoryLayout :=
  Except.ok (planLayout waveformSampleCount sampleSize burstSizeBytes
    relaxUs sampleRate ramBase)

/-- Modelled from the words of the spec, for comparison with the source:
the raw relax-sample count as the spec states it,
ceil(relaxationMicroseconds * 1e-6 * sampleRateHz). -/
def specCeilRelaxSamples (relaxUs sampleRate : Nat) : Nat :=
  (relaxUs * sampleRate + 999999) / 1000000

/-! ## Completion waiter (source lines 109-131)

wait_done polls WRITER_DONE and READER_DONE, masks each with 0x1, reads
both pointer registers on every iteration, returns the pointers of the
iteration in which both flags are observed set, and raises TimeoutError
with the pointers of the current iteration once the elapsed time since
t0 exceeds timeout_s.  A run of the loop is modelled by the list of
observations the four register reads of each iteration produce; the
elapsed field of an observation is the value time.time() - t0 has when
that iteration reaches the timeout test. -/

/-- The four register values one iteration of the polling loop reads,
together with the elapsed time at that iteration. -/
structure PollObs where
  writerDoneReg : Nat
  readerDoneReg : Nat
  writePtr : Nat
  readPtr : Nat
  elapsed : ℚ
deriving DecidableEq

/-- The loop condition: writer_done and reader_done, after masking each
register value with 0x1. -/
def bothDone (p : PollObs) : Bool :=
  p.writerDoneReg % 2 == 1 && p.readerDoneReg % 2 == 1

/-- wait_done over a finite list of poll observations.  Returns none if
the list is exhausted before the loop decides (the real loop would keep
polling), some (ok (wp, rp)) on completion, and some (error (wp, rp))
for the TimeoutError carrying the pointers read in that iteration. -/
def waitDone (timeout : ℚ) : List PollObs → Option (Except (Nat × Nat) (Nat × Nat))
  | [] => none
  | p :: rest =>
      if bothDone p then some (Except.ok (p.writePtr, p.readPtr))
      else if timeout < p.elapsed then some (Except.error (p.writePtr, p.readPtr))
      else waitDone timeout rest

/-! ## Capture extraction (source lines 343-357)

The extraction loop iterates offset over range(0, bytes_to_read,
chunk_size), reads read_size = min(chunk_size, bytes_to_read - offset)
bytes at writer_offset_rel + offset, and appends them to the output
file.  DDR memory is modelled as a function from byte addresses to byte
values. -/

/-- Python range(0, n, c) for a positive step c. -/
def pyRange (n c : Nat) : List Nat :=
  (List.range ((n + c - 1) / c)).map (fun k => k * c)

/-- ram_mmio.read(addr, len) as the list of len bytes starting at addr. -/
def ramRead (mem : Nat → Nat) (addr len : Nat) : List Nat :=
  (List.range len).map (fun i => mem (addr + i))

/-- Concatenation of the per-iteration outputs of a loop body. -/
def concatMap (f : Nat → List Nat) : List Nat → List Nat
  | [] => []
  | x :: xs => f x ++ concatMap f xs

/-- The read_size values of the successive loop iterations. -/
def chunkSizesOf (n c : Nat) : List Nat :=
  (pyRange n c).map (fun o => min c (n - o))

/-- The concatenation of all chunks the extraction loop writes to the
output file: for each offset, the min(c, n - offset) bytes read at
rel + offset. -/
def extractBytes (mem : Nat → Nat) (rel n c : Nat) : List Nat :=
  concatMap (fun o => ramRead mem (rel + o) (min c (n - o))) (pyRange n c)

/-! ## Script prefix as a trace of hardware events (source lines 137-316)

The straight-line part of the script from the MMIO mapping up to the end
of the STEP 8 configuration block is modelled as a function from its
environment (whether the mapping succeeds, the value the identity
register read returns, and the generated waveform sample count
N = int(DURATION_S * SAMPLE_RATE), which is 125000 for the shipped
constants) to the list of hardware events it performs and the way the
prefix terminates.  Console prints and time.sleep calls produce no
events. -/

/-- A hardware access performed by the script, or the warning print of
the identity check. -/
inductive Ev
  | read32 (reg : Nat)
  | write32 (reg val : Nat)
  | ramWrite (off len : Nat)
  | warn
deriving DecidableEq

/-- How the modelled prefix of the script terminates. -/
inductive Outcome
  | configured
  | exited (code : Nat)
  | pyTypeError
deriving DecidableEq

/-! ### Identity check (source lines 151-158) -/

/-- raw_const.to_bytes(4, "big") for raw_const < 2^32. -/
def toBytesBE4 (x : Nat) : List Nat :=
  [x / 2 ^ 24 % 256, x / 2 ^ 16 % 256, x / 2 ^ 8 % 256, x % 256]

/-- The code points in 0..255 on which the Python str.isspace test is
true; str.strip() removes exactly these from both ends. -/
def isPySpace (c : Nat) : Bool :=
  c == 9 || c == 10 || c == 11 || c == 12 || c == 13 || c == 28 ||
  c == 29 || c == 30 || c == 31 || c == 32 || c == 133 || c == 160

/-- Python str.strip() on a latin-1 decoded string, represented as the
list of its code points (latin-1 decoding maps each byte to the code
point of the same value and never fails, so errors="ignore" is inert). -/
def pyStrip (s : List Nat) : List Nat :=
  ((s.dropWhile isPySpace).reverse.dropWhile isPySpace).reverse

/-- The code points of the expected identity string (the four
characters with codes 0xC5 0x41 0x42 0x43). -/
def MAGIC : List Nat := [197, 65, 66, 67]

/-- The register value whose big-endian bytes decode and strip to
exactly the expected identity string. -/
def RAW_MAGIC : Nat := 0xC5414243

/-- magic_str as computed by the script from the identity register
value. -/
def magicStr (raw : Nat) : List Nat := pyStrip (toBytesBE4 raw)

/-- The events of the identity check: one 32-bit read, then a warning
print exactly when the decoded string differs from the expected
constant.  Execution always falls through to the next phase. -/
def identityEvs (raw : Nat) : List Ev :=
  Ev.read32 MLA_CONST_REG :: (if magicStr raw = MAGIC then [] else [Ev.warn])

/-! ### Reset clears (source lines 164-177) and configuration writes
(source lines 284-314) -/

/-- The reset and clear writes of STEP 5, in program order. -/
def clearEvs : List Ev :=
  [Ev.write32 SOFT_RESET_REG 1,
   Ev.write32 WRITER_MIN_ADDRESS_REG 0,
   Ev.write32 WRITER_NUM_BURSTS_REG 0,
   Ev.write32 RELAXATION_TIME_REG 0,
   Ev.write32 EXCITATION_TIME_REG 0,
   Ev.write32 RELAY_ENABLED_REG 0,
   Ev.write32 READER_CONTINUOUS_MODE_REG 0,
   Ev.write32 WRITER_CONTINUOUS_MODE_REG 0]

/-- The configuration register writes of STEP 8, in program order, for
a computed layout. -/
def configureEvs (L : MemoryLayout) : List Ev :=
  [Ev.write32 WRITER_MIN_ADDRESS_REG RAM_BASE,
   Ev.write32 WRITER_NUM_BURSTS_REG L.waveformBurstCount,
   Ev.write32 READER_MIN_ADDRESS_REG L.captureStartOffsetAbsolute,
   Ev.write32 READER_NUM_BURSTS_REG L.captureBurstCount,
   Ev.write32 EXCITATION_TIME_REG EXCITATION_TIME_US,
   Ev.write32 RELAXATION_TIME_REG RELAXATION_TIME_US,
   Ev.write32 RELAY_ENABLED_REG 1,
   Ev.write32 READER_CONTINUOUS_MODE_REG 0,
   Ev.write32 WRITER_CONTINUOUS_MODE_REG 0,
   Ev.write32 TRIGGER_ENABLED_REG 0]

/-! ### The chunked waveform write loop (source lines 265-270)

The loop body evaluates wave_bytes()[i:i+chunk_size], that is, it
applies call syntax to wave_bytes, which at that point is the bytes
object returned by waveform.tobytes().  Calling a bytes object raises
TypeError in Python, so the dynamic semantics of the body is modelled
with an explicit value universe and a call operation. -/

/-- The Python values the loop manipulates: here only bytes objects,
carrying their length. -/
inductive PyVal
  | pyBytes (len : Nat)
deriving DecidableEq

/-- The Python error the loop can raise. -/
inductive PyError
  | typeError
deriving DecidableEq

/-- Application of call syntax to a value: a bytes object is not
callable, so the call raises TypeError. -/
def pyCall : PyVal → Except PyError PyVal
  | PyVal.pyBytes _ => Except.error PyError.typeError

/-- The loop for i in range(0, len(wave_bytes), chunk_size):
ram_mmio.write(i, wave_bytes()[i:i+chunk_size]), over an explicit list
of loop indices.  Each iteration first evaluates the call
wave_bytes(); only if that produced a value would the slice be taken
and the RAM write performed (the slice of a bytes object of length m at
[i:i+cs] has length min cs (m - i)). -/
def chunkedWriteGo (waveBytes : PyVal) (chunkSize : Nat) :
    List Nat → Except PyError (List Ev)
  | [] => Except.ok []
  | i :: rest =>
      match pyCall waveBytes with
      | Except.error e => Except.error e
      | Except.ok (PyVal.pyBytes m) =>
          match chunkedWriteGo waveBytes chunkSize rest with
          | Except.error e => Except.error e
          | Except.ok evs => Except.ok (Ev.ramWrite i (min chunkSize (m - i)) :: evs)

/-- The result of the chunked write loop for a waveform of N samples:
wave_bytes = waveform.tobytes() has length N * SAMPLE_SIZE and the
chunk size is 1 MiB (source line 267). -/
def loopResult (N : Nat) : Except PyError (List Ev) :=
  chunkedWriteGo (PyVal.pyBytes (N * SAMPLE_SIZE)) (1024 * 1024)
    (pyRange (N * SAMPLE_SIZE) (1024 * 1024))

/-- The events after the identity check, as a function of the outcome
of the chunked write loop: the reset clears, the initial waveform RAM
write of line 195, then the loop; if the loop raises, the prefix ends
there, otherwise the configuration writes of STEP 8 follow. -/
def postLoopTrace (N : Nat) : Except PyError (List Ev) → List Ev
  | Except.error _ => clearEvs ++ [Ev.ramWrite 0 (N * SAMPLE_SIZE)]
  | Except.ok evs =>
      clearEvs ++ [Ev.ramWrite 0 (N * SAMPLE_SIZE)] ++ evs ++
        configureEvs (planLayout N SAMPLE_SIZE BURST_BYTES
          RELAXATION_TIME_US SAMPLE_RATE RAM_BASE)

/-- How the prefix ends, as a function of the loop outcome. -/
def outcomeOfLoop : Except PyError (List Ev) → Outcome
  | Except.error _ => Outcome.pyTypeError
  | Except.ok _ => Outcome.configured

/-- The events after the identity check. -/
def postIdentityTrace (N : Nat) : List Ev := postLoopTrace N (loopResult N)

/-- How the prefix ends once the mapping succeeded. -/
def postIdentityOutcome (N : Nat) : Outcome := outcomeOfLoop (loopResult N)

/-- The environment of one run of the script prefix: whether the two
MMIO acquisitions succeed, the value the identity register read
returns, and the generated waveform sample count. -/
structure Env where
  mapOk : Bool
  identReg : Nat
  waveformSampleCount : Nat
deriving DecidableEq

/-- The script prefix: if either MMIO acquisition raises, the except
block prints and calls sys.exit(1) before any register or buffer
access; otherwise the identity check, the clears, the waveform write,
the chunked write loop and (if reached) the configuration writes run in
program order. -/
def scriptPrefix (env : Env) : List Ev × Outcome :=
  if env.mapOk then
    (identityEvs env.identReg ++ postIdentityTrace env.waveformSampleCount,
      postIdentityOutcome env.waveformSampleCount)
  else ([], Outcome.exited 1)
/-! ## Theorems for C1, C2, C9, C10 -/

/-- C1 (code bug): at the waveform size the script itself generates
(waveformSampleCount = 125000, sampleSize = 2, burstSizeBytes = 128) the
alignment invariant claimed by the spec fails: the code pads the
waveform byte count only to a multiple of 64 bytes (its own comment says
"Pad to 64-sample boundary", which at 2 bytes per sample would be 128
bytes), so the padded waveform length is 250048, which is 64 mod 128;
waveformBurstCount * 128 = 249984, so the burst division is not exact;
and the capture start offsets are only 64-byte aligned.  The relation
captureStartOffsetAbsolute = ramBase + paddedWaveformBytes does hold. -/
theorem c1_waveform_padding_not_burst_aligned :
    (planLayout 125000 2 128 3000 125000000 16777216).waveformByteLength
      = 250048 ∧
    (planLayout 125000 2 128 3000 125000000 16777216).waveformByteLength % 128
      = 64 ∧
    (planLayout 125000 2 128 3000 125000000 16777216).waveformBurstCount * 128
      = 249984 ∧
    (planLayout 125000 2 128 3000 125000000 16777216).captureStartOffsetRelative % 128
      = 64 ∧
    (planLayout 125000 2 128 3000 125000000 16777216).captureStartOffsetAbsolute % 128
      = 64 ∧
    (planLayout 125000 2 128 3000 125000000 16777216).captureStartOffsetAbsolute
      = 16777216 + (planLayout 125000 2 128 3000 125000000 16777216).waveformByteLength := by
  decide

/-- C2 (counterexample): at relaxationMicroseconds = 1 and
sampleRateHz = 1500000 the exact product is 1.5 samples; the code
truncates with int() and computes 1, while the ceiling the claim states
is 2.  (The IEEE-double value of (1 * 1e-6) * 1500000 is exactly 1.5,
so the float computation truncates to 1 as well.) -/
theorem c2_raw_count_is_floor_not_ceil :
    (planLayout 125000 2 128 1 1500000 16777216).relaxSamplesRaw = 1 ∧
    specCeilRelaxSamples 1 1500000 = 2 ∧
    (planLayout 125000 2 128 1 1500000 16777216).relaxSamplesRaw ≠
      specCeilRelaxSamples 1 1500000 := by
  decide

/-- C2 (amended): the raw relax-sample count is the truncation (floor)
of relaxationMicroseconds * 1e-6 * sampleRateHz, not the ceiling; it is
then padded up to the next multiple of 64 samples.  For the
configuration of the claim (sampleRateHz = 125000000,
relaxationMicroseconds = 3000, sampleSize = 2, burstSizeBytes = 128) the
product is the exact integer 375000, so the concrete values of the claim
all hold: raw count 375000, aligned count 375040,
captureByteLength 750080, captureBurstCount 5860. -/
theorem c2_relax_count_floor_and_concrete_values :
    (∀ us rate : Nat,
      (planLayout 125000 2 128 us rate 16777216).relaxSamplesRaw * 1000000
          ≤ us * rate ∧
      us * rate <
          ((planLayout 125000 2 128 us rate 16777216).relaxSamplesRaw + 1) * 1000000 ∧
      (planLayout 125000 2 128 us rate 16777216).relaxSamplesAligned % 64 = 0 ∧
      (planLayout 125000 2 128 us rate 16777216).relaxSamplesRaw
          ≤ (planLayout 125000 2 128 us rate 16777216).relaxSamplesAligned ∧
      (planLayout 125000 2 128 us rate 16777216).relaxSamplesAligned
          < (planLayout 125000 2 128 us rate 16777216).relaxSamplesRaw + 64) ∧
    (planLayout 125000 2 128 3000 125000000 16777216).relaxSamplesRaw = 375000 ∧
    (planLayout 125000 2 128 3000 125000000 16777216).relaxSamplesAligned = 375040 ∧
    (planLayout 125000 2 128 3000 125000000 16777216).captureByteLength = 750080 ∧
    (planLayout 125000 2 128 3000 125000000 16777216).captureBurstCount = 5860 := by
  refine ⟨fun us rate => ?_, by decide, by decide, by decide, by decide⟩
  simp only [planLayout, negMod]
  have hdm := Nat.div_add_mod (us * rate) 1000000
  have hlt : us * rate % 1000000 < 1000000 := Nat.mod_lt _ (by norm_num)
  have hdm64 := Nat.div_add_mod (us * rate / 1000000) 64
  have hlt64 : us * rate / 1000000 % 64 < 64 := Nat.mod_lt _ (by norm_num)
  refine ⟨?_, ?_, ?_, ?_, ?_⟩ <;> omega

/-- C9: the layout computation is deterministic and side-effect free:
it is embedded as a pure function of exactly the six quantities the
claim lists (waveform sample count, sample size, burst size, relaxation
microseconds, sample rate, RAM base), so two runs on identical inputs
produce identical layouts, field for field.  The source block uses only
integer arithmetic on these inputs and local variables; it reads no
other state and mutates none. -/
theorem c9_layout_deterministic
    (n1 s1 b1 u1 r1 m1 n2 s2 b2 u2 r2 m2 : Nat)
    (hn : n1 = n2) (hs : s1 = s2) (hb : b1 = b2)
    (hu : u1 = u2) (hr : r1 = r2) (hm : m1 = m2) :
    planLayout n1 s1 b1 u1 r1 m1 = planLayout n2 s2 b2 u2 r2 m2 := by
  subst hn hs hb hu hr hm; rfl

/-- Witness for C9 at the configuration of the script. -/
theorem c9_layout_deterministic_witness :
    planLayout 125000 2 128 3000 125000000 16777216 =
      planLayout 125000 2 128 3000 125000000 16777216 :=
  c9_layout_deterministic 125000 2 128 3000 125000000 16777216
    125000 2 128 3000 125000000 16777216 rfl rfl rfl rfl rfl rfl

/-- C10: with sampleSize = 2 and burstSizeBytes = 128, the 64-sample
alignment of the relax-sample count already produces a burst-aligned
byte count, so the round-down by integer division in
writer_num_bursts = (relax_samples_aligned * 2) // 128 discards nothing:
true_writer_bytes = relax_samples_aligned * 2 exactly, and
writer_num_bursts * 128 = relax_samples_aligned * 2, for every
relaxation time and sample rate (hence for every non-negative raw
relax-sample count, since the raw count ranges over all of Nat as these
vary). -/
theorem c10_no_bytes_discarded (us rate : Nat) :
    (planLayout 125000 2 128 us rate 16777216).captureByteLength
        = (planLayout 125000 2 128 us rate 16777216).relaxSamplesAligned * 2 ∧
    (planLayout 125000 2 128 us rate 16777216).captureBurstCount * 128
        = (planLayout 125000 2 128 us rate 16777216).relaxSamplesAligned * 2 := by
  simp only [planLayout, negMod]
  have hdm64 := Nat.div_add_mod (us * rate / 1000000) 64
  have hlt64 : us * rate / 1000000 % 64 < 64 := Nat.mod_lt _ (by norm_num)
  constructor <;> omega

/-- C4: let p be the first deciding iteration of wait_done, after a
prefix of iterations in which the flags were not both set and the
timeout had not elapsed.  If p observes both done-flags set, wait_done
returns the write/read pointers read in that same iteration; if instead
the timeout has elapsed at p, wait_done raises TimeoutError carrying
the pointers read in that (last observed) iteration.  Pointers are read
on every iteration: each PollObs records the pointer reads of its
iteration, completed or not, and the values returned or raised are
exactly the fields of the deciding observation. -/
theorem c4_wait_done_first_decision (timeout : ℚ) (pre : List PollObs)
    (p : PollObs) (rest : List PollObs)
    (hpre : ∀ q ∈ pre, bothDone q = false ∧ q.elapsed ≤ timeout) :
    (bothDone p = true →
      waitDone timeout (pre ++ p :: rest) = some (Except.ok (p.writePtr, p.readPtr))) ∧
    (bothDone p = false → timeout < p.elapsed →
      waitDone timeout (pre ++ p :: rest) = some (Except.error (p.writePtr, p.readPtr))) := by
  induction pre with
  | nil =>
      constructor
      · intro hdone
        simp [waitDone, hdone]
      · intro hdone htime
        simp [waitDone, hdone, htime]
  | cons q pre ih =>
      have hq := hpre q (List.mem_cons_self q pre)
      have hpre' : ∀ r ∈ pre, bothDone r = false ∧ r.elapsed ≤ timeout :=
        fun r hr => hpre r (List.mem_cons_of_mem q hr)
      have hnt : ¬ timeout < q.elapsed := not_lt.mpr hq.2
      simpa [waitDone, hq.1, hnt] using ih hpre'

/-- Witness for C4: a two-iteration trace in which the first poll sees
only the writer flag set and the second poll sees both; wait_done
returns the pointers (7, 8) read in the second iteration. -/
theorem c4_wait_done_witness :
    waitDone 30 [⟨1, 0, 5, 6, (1 : ℚ)/10⟩, ⟨1, 1, 7, 8, (2 : ℚ)/10⟩] =
      some (Except.ok (7, 8)) := by
  have h := (c4_wait_done_first_decision 30 [⟨1, 0, 5, 6, (1 : ℚ)/10⟩]
    ⟨1, 1, 7, 8, (2 : ℚ)/10⟩ []
    (by
      intro q hq
      simp only [List.mem_singleton] at hq
      subst hq
      exact ⟨by decide, by norm_num⟩)).1 (by decide)
  simpa using h

theorem concatMap_map_list (f : Nat → List Nat) (g : Nat → Nat) (l : List Nat) :
    concatMap f (l.map g) = concatMap (fun x => f (g x)) l := by
  induction l with
  | nil => rfl
  | cons x xs ih => simp [concatMap, ih]

theorem pyRange_zero (c : Nat) : pyRange 0 c = [] := by
  rcases Nat.eq_zero_or_pos c with hc | hc
  · subst hc; rfl
  · have h0 : (c - 1) / c = 0 := Nat.div_eq_of_lt (by omega)
    simp [pyRange, h0]

theorem pyRange_cons (n c : Nat) (hc : 0 < c) (hn : 0 < n) :
    pyRange n c = 0 :: (pyRange (n - c) c).map (fun o => o + c) := by
  have hcount : (n + c - 1) / c = (n - c + c - 1) / c + 1 := by
    rcases le_or_lt n c with h | h
    · have h1 : n - c = 0 := by omega
      have h2 : n + c - 1 = (n - 1) + c := by omega
      have h3 : (n - 1) / c = 0 := Nat.div_eq_of_lt (by omega)
      have h4 : (0 + c - 1) / c = 0 := Nat.div_eq_of_lt (by omega)
      rw [h1, h2, h4, Nat.add_div_right _ hc, h3]
    · have h2 : n + c - 1 = (n - c + c - 1) + c := by omega
      rw [h2, Nat.add_div_right _ hc]
  unfold pyRange
  rw [hcount, List.range_succ_eq_map]
  simp only [List.map_cons, Nat.zero_mul, List.map_map]
  congr 1
  simp [Function.comp, Nat.succ_mul]

theorem ramRead_append (mem : Nat → Nat) (addr a b : Nat) :
    ramRead mem addr a ++ ramRead mem (addr + a) b = ramRead mem addr (a + b) := by
  simp [ramRead, List.range_add, List.map_map, Function.comp, Nat.add_assoc]

theorem chunkSizesOf_sum (n c : Nat) (hc : 0 < c) : (chunkSizesOf n c).sum = n := by
  induction n using Nat.strong_induction_on with
  | _ n ih =>
    rcases Nat.eq_zero_or_pos n with hn | hn
    · subst hn; simp [chunkSizesOf, pyRange_zero]
    · have hrec := ih (n - c) (by omega)
      rw [chunkSizesOf, pyRange_cons n c hc hn]
      simp only [List.map_cons, List.map_map, List.sum_cons, Nat.sub_zero]
      have hmap : (fun o => min c (n - o)) ∘ (fun o => o + c)
          = fun o => min c (n - c - o) := by
        funext o
        simp only [Function.comp]
        omega
      rw [hmap]
      have : (List.map (fun o => min c (n - c - o)) (pyRange (n - c) c)).sum
          = n - c := hrec
      omega

theorem extractBytes_eq_ramRead (mem : Nat → Nat) (rel n c : Nat) (hc : 0 < c) :
    extractBytes mem rel n c = ramRead mem rel n := by
  induction n using Nat.strong_induction_on generalizing rel with
  | _ n ih =>
    rcases Nat.eq_zero_or_pos n with hn | hn
    · subst hn; simp [extractBytes, pyRange_zero, ramRead, concatMap]
    · rw [extractBytes, pyRange_cons n c hc hn, concatMap, concatMap_map_list]
      have hbody : (fun o => ramRead mem (rel + (o + c)) (min c (n - (o + c))))
          = fun o => ramRead mem ((rel + c) + o) (min c ((n - c) - o)) := by
        funext o
        have h1 : rel + (o + c) = (rel + c) + o := by omega
        have h2 : n - (o + c) = (n - c) - o := by omega
        rw [h1, h2]
      rw [hbody]
      have htail : concatMap (fun o => ramRead mem ((rel + c) + o) (min c ((n - c) - o)))
          (pyRange (n - c) c) = extractBytes mem (rel + c) (n - c) c := rfl
      rw [htail, ih (n - c) (by omega) (rel + c)]
      rcases le_or_lt n c with h | h
      · rw [show min c (n - 0) = n by omega, show n - c = 0 by omega,
          show rel + 0 = rel from rfl]
        simp [ramRead]
      · rw [show min c (n - 0) = c by omega, show rel + 0 = rel from rfl,
          ramRead_append]
        congr 1
        omega

/-- C5: for every byte length n and positive chunk size c, the
read_size values of the extraction loop are min(c, n - offset) per
iteration, their total is exactly n, and the concatenated output is the
n bytes of memory starting at the relative offset — a value that does
not mention the chunk size, so the result is independent of the chunk
boundaries. -/
theorem c5_extraction_exact (mem : Nat → Nat) (rel n c : Nat) (hc : 0 < c) :
    (chunkSizesOf n c).sum = n ∧
    extractBytes mem rel n c = ramRead mem rel n := by
  exact ⟨chunkSizesOf_sum n c hc, extractBytes_eq_ramRead mem rel n c hc⟩

/-- Witness for C5 at the example of the claim: byteLength 10000000
with 8 MiB chunks gives exactly the two read sizes 8388608 and 1611392,
summing to 10000000. -/
theorem c5_extraction_exact_witness :
    (0 : Nat) < 8388608 ∧
    (chunkSizesOf 10000000 8388608).sum = 10000000 ∧
    chunkSizesOf 10000000 8388608 = [8388608, 1611392] := by
  refine ⟨by norm_num, ?_, by decide⟩
  exact (c5_extraction_exact (fun _ => 0) 250048 10000000 8388608 (by norm_num)).1

theorem chunkedWriteGo_ok_nil {v : PyVal} {cs : Nat} {l : List Nat}
    {evs : List Ev} (h : chunkedWriteGo v cs l = Except.ok evs) : evs = [] := by
  cases l with
  | nil =>
      simp only [chunkedWriteGo] at h
      exact (Except.ok.injEq _ _ ▸ h.symm)
  | cons i rest =>
      cases v
      simp [chunkedWriteGo, pyCall] at h

theorem warn_not_mem_postLoopTrace (N : Nat) (r : Except PyError (List Ev))
    (hr : ∀ evs, r = Except.ok evs → evs = []) :
    Ev.warn ∉ postLoopTrace N r := by
  cases r with
  | error e => simp [postLoopTrace, clearEvs]
  | ok evs =>
      have hnil := hr evs rfl
      subst hnil
      simp [postLoopTrace, clearEvs, configureEvs]

theorem warn_not_mem_postIdentityTrace (N : Nat) :
    Ev.warn ∉ postIdentityTrace N :=
  warn_not_mem_postLoopTrace N (loopResult N)
    (fun _ h => chunkedWriteGo_ok_nil h)

theorem filter_identityEvs (raw : Nat) :
    (identityEvs raw).filter (fun e => decide (e ≠ Ev.warn)) =
      [Ev.read32 MLA_CONST_REG] := by
  unfold identityEvs
  by_cases hmag : magicStr raw = MAGIC <;> simp [hmag]

/-- C6: on every run in which the mapping succeeded and the generated
waveform is non-empty, the first iteration of the chunked write loop
evaluates the call wave_bytes() on the bytes object and raises
TypeError (first conjunct: the loop raises on any non-empty index list,
whatever the chunk size); the script prefix therefore ends with
pyTypeError having performed only the identity read (plus possible
warning), the reset clears, and the initial waveform RAM write — none
of the STEP 8 configuration register writes have been performed. -/
theorem c6_wave_bytes_call_raises (env : Env)
    (hmap : env.mapOk = true) (hN : 1 ≤ env.waveformSampleCount) :
    (∀ (v : PyVal) (cs i : Nat) (rest : List Nat),
        chunkedWriteGo v cs (i :: rest) = Except.error PyError.typeError) ∧
    scriptPrefix env =
      (identityEvs env.identReg ++ clearEvs ++
        [Ev.ramWrite 0 (env.waveformSampleCount * SAMPLE_SIZE)],
       Outcome.pyTypeError) := by
  constructor
  · intro v cs i rest
    cases v
    rfl
  · obtain ⟨mo, raw, N⟩ := env
    dsimp only at hmap hN
    subst hmap
    have hpos : 0 < N * SAMPLE_SIZE := by
      rw [show SAMPLE_SIZE = 2 from rfl]
      omega
    have herr : loopResult N = Except.error PyError.typeError := by
      unfold loopResult
      rw [pyRange_cons _ _ (by norm_num) hpos]
      rfl
    have h1 : scriptPrefix ⟨true, raw, N⟩
        = (identityEvs raw ++ postLoopTrace N (loopResult N),
           outcomeOfLoop (loopResult N)) := rfl
    rw [h1, herr, List.append_assoc]
    rfl

/-- Witness for C6 at the environment of an actual run: the mapping
succeeded, the identity register holds the expected constant, and the
waveform has the 125000 samples the script generates. -/
theorem c6_wave_bytes_call_raises_witness :
    scriptPrefix ⟨true, 0xC5414243, 125000⟩ =
      (identityEvs 0xC5414243 ++ clearEvs ++
        [Ev.ramWrite 0 (125000 * SAMPLE_SIZE)], Outcome.pyTypeError) :=
  (c6_wave_bytes_call_raises ⟨true, 0xC5414243, 125000⟩ rfl (by norm_num)).2

/-- C7: the identity check never raises and never terminates the run.
For every value the identity register read can return (a 32-bit value),
a warning appears in the trace exactly when the mapping succeeded and
the decoded, stripped identity string differs from the expected
constant; and the run with any register value has the same outcome and
the same hardware events (the trace with warnings removed) as the run
that reads the matching constant — the mismatch changes nothing but the
warning. -/
theorem c7_identity_mismatch_warns_only (mapOk : Bool) (raw N : Nat)
    (hraw : raw < 2 ^ 32) :
    (Ev.warn ∈ (scriptPrefix ⟨mapOk, raw, N⟩).1 ↔
        mapOk = true ∧ magicStr raw ≠ MAGIC) ∧
    (scriptPrefix ⟨mapOk, raw, N⟩).2 = (scriptPrefix ⟨mapOk, RAW_MAGIC, N⟩).2 ∧
    (scriptPrefix ⟨mapOk, raw, N⟩).1.filter (fun e => decide (e ≠ Ev.warn)) =
      (scriptPrefix ⟨mapOk, RAW_MAGIC, N⟩).1.filter (fun e => decide (e ≠ Ev.warn)) := by
  cases mapOk with
  | false =>
      have h0 : ∀ r : Nat, scriptPrefix ⟨false, r, N⟩ = ([], Outcome.exited 1) :=
        fun r => rfl
      rw [h0 raw, h0 RAW_MAGIC]
      simp
  | true =>
      have h1 : ∀ r : Nat, scriptPrefix ⟨true, r, N⟩
          = (identityEvs r ++ postIdentityTrace N, postIdentityOutcome N) :=
        fun r => rfl
      rw [h1 raw, h1 RAW_MAGIC]
      dsimp only
      refine ⟨?_, rfl, ?_⟩
      · rw [List.mem_append]
        have h2 := warn_not_mem_postIdentityTrace N
        by_cases hmag : magicStr raw = MAGIC
        · simp [identityEvs, hmag, h2]
        · simp [identityEvs, hmag, h2]
      · rw [List.filter_append, List.filter_append,
          filter_identityEvs, filter_identityEvs]

/-- Witness for C7 at a mismatching register value: the warning is
emitted and nothing else changes. -/
theorem c7_identity_mismatch_warns_only_witness :
    (0x11223344 : Nat) < 2 ^ 32 ∧
    (Ev.warn ∈ (scriptPrefix ⟨true, 0x11223344, 0⟩).1 ↔
        true = true ∧ magicStr 0x11223344 ≠ MAGIC) :=
  ⟨by norm_num, (c7_identity_mismatch_warns_only true 0x11223344 0 (by norm_num)).1⟩

/-- C8: if acquiring either mapped resource fails, the script prints and
calls sys.exit(1) inside the except block; the event trace of the run is
empty — no register read, no register write, no buffer access — and the
outcome is a fatal exit with code 1. -/
theorem c8_mapping_failure_aborts_untouched (env : Env)
    (h : env.mapOk = false) :
    scriptPrefix env = ([], Outcome.exited 1) := by
  simp [scriptPrefix, h]

/-- Witness for C8. -/
theorem c8_mapping_failure_aborts_untouched_witness :
    scriptPrefix ⟨false, 0, 0⟩ = ([], Outcome.exited 1) :=
  c8_mapping_failure_aborts_untouched ⟨false, 0, 0⟩ rfl

/-- C3 (counterexample): the claim says the layout computation fails
with LayoutError for waveformSampleCount = 0 and for a capture region
exceeding ramSize; in the code it succeeds on both.  At
waveformSampleCount = 0 the computation returns a layout; at
relaxationMicroseconds = 3000000 the capture region ends 750 MB past
the start of the 4 MiB memory region and the computation still returns
a layout instead of failing. -/
theorem c3_layout_never_fails_counterexample :
    planChecked 0 2 128 3000 125000000 16777216 4194304 =
      Except.ok (planLayout 0 2 128 3000 125000000 16777216) ∧
    planChecked 125000 2 128 3000000 125000000 16777216 4194304 =
      Except.ok (planLayout 125000 2 128 3000000 125000000 16777216) ∧
    4194304 <
      (planLayout 125000 2 128 3000000 125000000 16777216).captureStartOffsetRelative +
        (planLayout 125000 2 128 3000000 125000000 16777216).captureByteLength := by
  exact ⟨rfl, rfl, by decide⟩

/-- C3 (amended): the layout computation performs no validation at all:
it never raises for any input (first conjunct), and in particular for a
zero-sample waveform the script does not stop — with the mapping up and
the identity constant matching, the prefix runs to the end of the
configuration phase and the configuration register writes are
performed, including the waveform source address write. -/
theorem c3_layout_never_fails_amended :
    (∀ n s b u r mb ms, planChecked n s b u r mb ms =
        Except.ok (planLayout n s b u r mb)) ∧
    (scriptPrefix ⟨true, RAW_MAGIC, 0⟩).2 = Outcome.configured ∧
    Ev.write32 WRITER_MIN_ADDRESS_REG RAM_BASE ∈
      (scriptPrefix ⟨true, RAW_MAGIC, 0⟩).1 := by
  exact ⟨fun n s b u r mb ms => rfl, by decide, by decide⟩

end Ringdown

